import Mathlib

/-!
Shallow embedding of the AMOS sighting synchronization utility
(`classes/tree.py` and `classes/processor.py`): the per-file decision
engine, the run counters, and the file-processor operations (header
patching, copying, transcoding, deletion), with theorems checking the
natural-language specification against these definitions.

Filesystem side effects are modelled as explicit action traces
(`FsAction`); outcomes of the operating-system calls made inside
`DirectoryConvertor.process` and `FileProcessor.delete` (stat, copy,
unlink, subprocess) are injected as parameters of type `Except OsErr`.
-/

/-- Recoverable Python exceptions observable from filesystem operations:
`FileNotFoundError` and any other `OSError`. In the engine these are the
two classes caught by the per-file handlers in `DirectoryConvertor.run`. -/
inductive OsErr
  | fileNotFound
  | osError
deriving DecidableEq, Repr

/-- A filesystem or process side effect performed by `FileProcessor`. -/
inductive FsAction
  | writeBytes (path : String) (offset : Nat) (bytes : List Nat)
  | mkdir (path : String)
  | copyFile (source target : String)
  | unlink (path : String)
  | runFfmpeg (command : List String)
deriving DecidableEq, Repr

/-- The faulty pixel-format tag bytes, ASCII `"Y16 "` (trailing space). -/
def y16Bytes : List Nat := [0x59, 0x31, 0x36, 0x20]

/-- The corrected pixel-format tag bytes, ASCII `"Y800"`. -/
def y800Bytes : List Nat := [0x59, 0x38, 0x30, 0x30]

/-- Overwriting bytes in place at a given offset, as `seek(offset)`
followed by `write(bytes)` does on a file opened `r+b` whose length is at
least `offset + bytes.length`. -/
def listWriteAt (content : List Nat) (offset : Nat) (bytes : List Nat) : List Nat :=
  content.take offset ++ bytes ++ content.drop (offset + bytes.length)

/-- Result of `FileProcessor.correct_video_header`: the file content after
the call, whether the warning log was emitted, and the write actions
performed. -/
structure HeaderResult where
  content : List Nat
  warned : Bool
  actions : List FsAction
deriving DecidableEq, Repr

namespace FileProcessor

/-- `FileProcessor.correct_video_header` (processor.py lines 17-31): read
4 bytes at offset 188; if they equal `"Y16 "`, warn and, in real-run mode
only, overwrite them in place with `"Y800"`; otherwise do nothing and emit
no log. `read(4)` at offset 188 returns fewer than 4 bytes on a short
file, which then cannot equal the 4-byte tag. -/
def correct_video_header (real_run : Bool) (path : String)
    (content : List Nat) : HeaderResult :=
  let pixel_format := (content.drop 188).take 4
  if pixel_format = y16Bytes then
    if real_run then
      { content := listWriteAt content 188 y800Bytes
        warned := true
        actions := [FsAction.writeBytes path 188 y800Bytes] }
    else
      { content := content, warned := true, actions := [] }
  else
    { content := content, warned := false, actions := [] }

/-- `FileProcessor.delete` (processor.py lines 33-45): in real-run mode,
stat the file for its size, unlink it and return the size, re-raising any
`OSError` from either call after logging it; in dry-run mode do nothing
and return 0. The outcomes of the underlying `stat` and `unlink` system
calls are injected. -/
def delete (real_run : Bool) (path : String)
    (statResult : Except OsErr Int) (unlinkResult : Except OsErr Unit) :
    Except OsErr Int × List FsAction :=
  if real_run then
    match statResult with
    | Except.error e => (Except.error e, [])
    | Except.ok size =>
      match unlinkResult with
      | Except.error e => (Except.error e, [])
      | Except.ok _ => (Except.ok size, [FsAction.unlink path])
  else
    (Except.ok 0, [])

/-- `FileProcessor.copy` (processor.py lines 47-55): in real-run mode make
the target's parent directories and copy the file; in dry-run mode do
nothing. Always returns 0. -/
def copy (real_run : Bool) (source targetParent target : String) :
    Int × List FsAction :=
  if real_run then
    (0, [FsAction.mkdir targetParent, FsAction.copyFile source target])
  else
    (0, [])

end FileProcessor

/-- The ffmpeg argument list built by `FileProcessor.convert_avi`
(processor.py lines 68-83). -/
def ffmpegCommand (ffmpeg source : String) (loglevel : Int)
    (codec pixel_format target : String) : List String :=
  [ffmpeg, "-hide_banner", "-y", "-i", source, "-loglevel", toString loglevel,
   "-c:v", codec]
  ++ (if codec = "libx264" then ["-qp", "0"] else [])
  ++ ["-pix_fmt", pixel_format, target]

namespace FileProcessor

/-- `FileProcessor.convert_avi` (processor.py lines 57-95): if the source
does not exist, return 0 immediately with no side effect; otherwise patch
the video header, make the target's parent directories, build the ffmpeg
command, and, in real-run mode, run it (a non-zero exit status raises
`OSError`), returning the size difference on success; in dry-run mode log
the command and return 0. Note that the header patch and the `mkdir` are
performed before the `real_run` test. -/
def convert_avi (real_run debug : Bool) (ffmpeg : String)
    (source targetParent target : String)
    (sourceExists : Bool) (sourceContent : List Nat)
    (codec pixel_format : String)
    (sourceSize targetSize ffmpegReturn : Int) :
    Except OsErr Int × List FsAction :=
  if !sourceExists then
    (Except.ok 0, [])
  else
    let hdr := correct_video_header real_run source sourceContent
    let acts := hdr.actions ++ [FsAction.mkdir targetParent]
    let loglevel : Int := if debug then 32 else 24
    let command := ffmpegCommand ffmpeg source loglevel codec pixel_format target
    if real_run then
      let acts := acts ++ [FsAction.runFfmpeg command]
      if ffmpegReturn ≠ 0 then
        (Except.error OsErr.osError, acts)
      else
        (Except.ok (sourceSize - targetSize), acts)
    else
      (Except.ok 0, acts)

end FileProcessor

namespace DirectoryConvertor

/-- `DirectoryConvertor.load_config` (tree.py line 85): the run mode is
`real_run = not (copy_files or delete_files)`. -/
def real_run (copy_files delete_files : Bool) : Bool :=
  !(copy_files || delete_files)

/-- `DirectoryConvertor.process` (tree.py lines 173-182): an `.avi` file
with video conversion enabled goes to `convert_avi` (with the configured
codec and the fixed pixel format `gray`); every other file goes to
`copy`. -/
def process (video_convert : Bool) (suffix : String)
    (rr debug : Bool) (ffmpeg source targetParent target : String)
    (sourceExists : Bool) (sourceContent : List Nat)
    (codec : String) (sourceSize targetSize ffmpegReturn : Int) :
    Except OsErr Int × List FsAction :=
  if suffix = ".avi" && video_convert then
    FileProcessor.convert_avi rr debug ffmpeg source targetParent target
      sourceExists sourceContent codec "gray" sourceSize targetSize ffmpegReturn
  else
    let r := FileProcessor.copy rr source targetParent target
    (Except.ok r.1, r.2)

/-- `DirectoryConvertor.delete` (tree.py lines 169-171): calls
`FileProcessor.delete` and falls off the end without a `return` statement,
so the Python function returns `None` regardless of the size the processor
computed; exceptions propagate unchanged. -/
def delete (processorResult : Except OsErr Int) : Except OsErr (Option Int) :=
  match processorResult with
  | Except.ok _ => Except.ok none
  | Except.error e => Except.error e

end DirectoryConvertor

/-- Python `+=` between an `int` and the value of an expression that may
be `None`: adding `None` to an `int` raises `TypeError` (modelled as
`Except.error ()`). -/
def pyAddIntOption (n : Int) : Option Int → Except Unit Int
  | some m => Except.ok (n + m)
  | none => Except.error ()

/-- Per-file observations of one discovered source file, with the
outcomes of the operating-system interactions injected: whether the
initial `stat` succeeds (the file may vanish between discovery and stat),
its size, its age (now minus source mtime) in seconds, whether the target
path exists, whether `source_age < target_age`, and the outcomes of the
`DirectoryConvertor.process` call and of the underlying
`FileProcessor.delete` call for this file. -/
structure FileObs where
  statOk : Bool
  size : Int
  source_age_seconds : Int
  target_exists : Bool
  source_newer : Bool
  processOutcome : Except OsErr Int
  deleteOutcome : Except OsErr Int

/-- Python `timedelta.days`: the whole-day component, floor division of
the total duration by one day. -/
def timedeltaDays (seconds : Int) : Int := Int.fdiv seconds 86400

/-- The run counters accumulated by `DirectoryConvertor.run`
(tree.py lines 90-98). -/
structure Counters where
  processed : Int
  process_failed : Int
  processed_size : Int
  reclaimed_size : Int
  deleted : Int
  delete_failed : Int
  deleted_size : Int
  inspected : Int
  inspected_size : Int
deriving DecidableEq, Repr

/-- All counters start at zero. -/
def Counters.zero : Counters := ⟨0, 0, 0, 0, 0, 0, 0, 0, 0⟩

/-- The per-file classification computed by `DirectoryConvertor.run`
(tree.py lines 110-120). -/
structure Decisions where
  is_copied : Bool
  is_updated : Bool
  is_old : Bool
  should_process : Bool
  should_delete : Bool
deriving DecidableEq, Repr

/-- Per-file classification (tree.py lines 110-120): `is_copied` iff the
target exists; `is_updated` iff the target exists and the source is newer;
`is_old` iff the whole-day age reaches the `older_than` threshold;
`should_process = (not is_copied) or (is_updated and copy_files)` (Python
precedence: `and` binds tighter than `or`); `should_delete = is_old and
is_copied and delete_files`. -/
def computeDecisions (older_than : Int) (copy_files delete_files : Bool)
    (f : FileObs) : Decisions :=
  let is_copied := f.target_exists
  let is_updated := f.target_exists && f.source_newer
  let is_old := decide (timedeltaDays f.source_age_seconds ≥ older_than)
  { is_copied := is_copied
    is_updated := is_updated
    is_old := is_old
    should_process := !is_copied || (is_updated && copy_files)
    should_delete := is_old && is_copied && delete_files }

/-- Outcome of handling one file inside the traversal loop: either the
loop continues with updated counters, or an uncaught exception (the
`TypeError` from `deleted_size += None`) aborts the whole run. -/
inductive StepResult
  | cont (c : Counters)
  | crash (c : Counters)
deriving DecidableEq, Repr

/-- The `should_delete` block (tree.py lines 142-151): call the
`DirectoryConvertor.delete` wrapper and add its result to `deleted_size`,
then increment `deleted`. A `FileNotFoundError` increments `delete_failed`
and re-raises to the outer per-file handler (which logs and continues);
another `OSError` increments `delete_failed` and continues. The wrapper
returns `None` on success, so the `+=` raises an uncaught `TypeError`. -/
def deleteBlock (shouldDelete : Bool) (f : FileObs) (c : Counters) : StepResult :=
  if shouldDelete then
    match DirectoryConvertor.delete f.deleteOutcome with
    | Except.ok v =>
      match pyAddIntOption c.deleted_size v with
      | Except.ok n =>
        StepResult.cont { c with deleted_size := n, deleted := c.deleted + 1 }
      | Except.error _ => StepResult.crash c
    | Except.error OsErr.fileNotFound =>
      StepResult.cont { c with delete_failed := c.delete_failed + 1 }
    | Except.error OsErr.osError =>
      StepResult.cont { c with delete_failed := c.delete_failed + 1 }
  else
    StepResult.cont c

/-- The body of the traversal loop of `DirectoryConvertor.run` for one
file (tree.py lines 104-153). If the initial `stat` raises
`FileNotFoundError`, the outer handler logs "skipping" and the loop
continues with no counter change. Otherwise `inspected` and
`inspected_size` are incremented, the decisions are computed, and the
process block runs: on success `processed`, `processed_size` and
`reclaimed_size` are updated and control falls through to the delete
block; on `FileNotFoundError` the failure counter is incremented and the
exception re-raised to the outer handler, skipping the delete block; on
another `OSError` the failure counter is incremented and control falls
through to the delete block. -/
def stepFile (older_than : Int) (copy_files delete_files : Bool)
    (f : FileObs) (c : Counters) : StepResult :=
  if !f.statOk then
    StepResult.cont c
  else
    let c1 := { c with inspected := c.inspected + 1,
                       inspected_size := c.inspected_size + f.size }
    let d := computeDecisions older_than copy_files delete_files f
    if d.should_process then
      match f.processOutcome with
      | Except.ok reclaimed =>
        deleteBlock d.should_delete f
          { c1 with processed := c1.processed + 1,
                    processed_size := c1.processed_size + f.size,
                    reclaimed_size := c1.reclaimed_size + reclaimed }
      | Except.error OsErr.fileNotFound =>
        StepResult.cont { c1 with process_failed := c1.process_failed + 1 }
      | Except.error OsErr.osError =>
        deleteBlock d.should_delete f
          { c1 with process_failed := c1.process_failed + 1 }
    else
      deleteBlock d.should_delete f c1

/-- Final state of `DirectoryConvertor.run`: whether an uncaught exception
aborted the traversal, and the counters at that point. -/
structure RunOutcome where
  aborted : Bool
  counters : Counters
deriving DecidableEq, Repr

/-- The traversal loop of `DirectoryConvertor.run` (tree.py lines
100-153) over the sorted list of discovered files. -/
def runLoop (older_than : Int) (copy_files delete_files : Bool) :
    List FileObs → Counters → RunOutcome
  | [], c => ⟨false, c⟩
  | f :: rest, c =>
    match stepFile older_than copy_files delete_files f c with
    | StepResult.cont c2 => runLoop older_than copy_files delete_files rest c2
    | StepResult.crash c2 => ⟨true, c2⟩

/-- C4: the run mode is fixed at startup as
`real_run = not (copy_files or delete_files)`: enabling either the copy
flag or the delete flag makes the entire run a dry run, and a run with
both flags disabled executes real filesystem actions — a file whose
target does not exist has `should_process = true`, and under
`real_run false false` a plain file is actually copied and an `.avi`
file with conversion enabled actually invokes ffmpeg. -/
theorem c4_real_run_inversion :
    (∀ cf df : Bool, DirectoryConvertor.real_run cf df = !(cf || df)) ∧
    (∀ df : Bool, DirectoryConvertor.real_run true df = false) ∧
    (∀ cf : Bool, DirectoryConvertor.real_run cf true = false) ∧
    DirectoryConvertor.real_run false false = true ∧
    (∀ (ot : Int) (f : FileObs),
      (computeDecisions ot false false { f with target_exists := false }).should_process
        = true) ∧
    (∀ (dbg : Bool) (ff src tp tgt : String) (content : List Nat)
        (cdc : String) (ss ts : Int),
      (DirectoryConvertor.process false ".txt"
          (DirectoryConvertor.real_run false false) dbg ff src tp tgt
          true content cdc ss ts 0).2
        = [FsAction.mkdir tp, FsAction.copyFile src tgt]) ∧
    (∀ (dbg : Bool) (ff src tp tgt cdc : String) (ss ts : Int),
      FsAction.runFfmpeg
          (ffmpegCommand ff src (if dbg then (32 : Int) else 24) cdc "gray" tgt) ∈
        (DirectoryConvertor.process true ".avi"
          (DirectoryConvertor.real_run false false) dbg ff src tp tgt
          true [] cdc ss ts 0).2) := by
  refine ⟨?_, ?_, ?_, rfl, ?_, ?_, ?_⟩
  · intro cf df; rfl
  · intro df; rfl
  · intro cf; cases cf <;> rfl
  · intro ot f
    simp [computeDecisions]
  · intro dbg ff src tp tgt content cdc ss ts
    rfl
  · intro dbg ff src tp tgt cdc ss ts
    cases dbg <;>
      simp [DirectoryConvertor.process, DirectoryConvertor.real_run,
        FileProcessor.convert_avi, FileProcessor.correct_video_header,
        y16Bytes]

/-- C5: `should_process` is computed as
`(not is_copied) or (is_updated and copy_files)`, and when the target
path does not exist it is true regardless of the `copy_files` flag. -/
theorem c5_should_process_formula :
    (∀ (ot : Int) (cf df : Bool) (f : FileObs),
      (computeDecisions ot cf df f).should_process
        = (!f.target_exists || ((f.target_exists && f.source_newer) && cf))) ∧
    (∀ (ot : Int) (cf df : Bool) (f : FileObs),
      (computeDecisions ot cf df { f with target_exists := false }).should_process
        = true) := by
  constructor
  · intro ot cf df f; rfl
  · intro ot cf df f; simp [computeDecisions]

/-- C7: `should_delete` is true iff all three of `is_old`, `is_copied`
and the `delete_files` flag hold, and making any single one of the three
false makes `should_delete` false. -/
theorem c7_should_delete_conjunction :
    (∀ (ot : Int) (cf df : Bool) (f : FileObs),
      ((computeDecisions ot cf df f).should_delete = true ↔
        ((computeDecisions ot cf df f).is_old = true ∧
         (computeDecisions ot cf df f).is_copied = true ∧ df = true))) ∧
    (∀ (ot : Int) (cf df : Bool) (f : FileObs),
      (computeDecisions ot cf df f).is_old = false →
        (computeDecisions ot cf df f).should_delete = false) ∧
    (∀ (ot : Int) (cf df : Bool) (f : FileObs),
      (computeDecisions ot cf df { f with target_exists := false }).should_delete
        = false) ∧
    (∀ (ot : Int) (cf : Bool) (f : FileObs),
      (computeDecisions ot cf false f).should_delete = false) := by
  refine ⟨?_, ?_, ?_, ?_⟩
  · intro ot cf df f
    simp only [computeDecisions, Bool.and_eq_true]
    tauto
  · intro ot cf df f h
    simp only [computeDecisions] at h ⊢
    simp [h]
  · intro ot cf df f; simp [computeDecisions]
  · intro ot cf f; simp [computeDecisions]

/-- C7 witness: at a concrete file that is copied and old, with the
delete flag enabled, `is_old` can be made false by a large threshold and
then `should_delete` is false. -/
theorem c7_should_delete_conjunction_witness :
    (computeDecisions 1000 true true
        { statOk := true, size := 7, source_age_seconds := 86400,
          target_exists := true, source_newer := false,
          processOutcome := Except.ok 0,
          deleteOutcome := Except.ok 0 }).is_old = false ∧
    (computeDecisions 1000 true true
        { statOk := true, size := 7, source_age_seconds := 86400,
          target_exists := true, source_newer := false,
          processOutcome := Except.ok 0,
          deleteOutcome := Except.ok 0 }).should_delete = false := by
  refine ⟨by decide, ?_⟩
  exact c7_should_delete_conjunction.2.1 1000 true true
    { statOk := true, size := 7, source_age_seconds := 86400,
      target_exists := true, source_newer := false,
      processOutcome := Except.ok 0, deleteOutcome := Except.ok 0 }
    (by decide)

/-- C8: `is_old` is true iff the whole-day component of the source age
(floor division of the age by 86400 seconds) is at least the configured
`older_than` threshold, and an age of exactly the threshold in days
counts as old. -/
theorem c8_is_old_days_threshold :
    (∀ (ot : Int) (cf df : Bool) (f : FileObs),
      (computeDecisions ot cf df f).is_old
        = decide (Int.fdiv f.source_age_seconds 86400 ≥ ot)) ∧
    (∀ (ot : Int) (cf df : Bool) (f : FileObs),
      (computeDecisions ot cf df
        { f with source_age_seconds := ot * 86400 }).is_old = true) := by
  constructor
  · intro ot cf df f; rfl
  · intro ot cf df f
    simp only [computeDecisions, timedeltaDays, ge_iff_le, decide_eq_true_eq]
    rw [Int.mul_fdiv_cancel ot (by decide)]

/-- C9: if the source path given to `convert_avi` does not exist, it
returns zero bytes reclaimed immediately, with no header patch, no
directory creation and no external-process invocation, and without
raising an error. -/
theorem c9_convert_missing_source :
    ∀ (rr dbg : Bool) (ff src tp tgt : String) (content : List Nat)
      (cdc pf : String) (ss ts rc : Int),
      FileProcessor.convert_avi rr dbg ff src tp tgt false content cdc pf ss ts rc
        = (Except.ok 0, []) := by
  intro rr dbg ff src tp tgt content cdc pf ss ts rc
  rfl

/-- C6: on a file whose 4 bytes at offset 188 are `"Y16 "`, a real-run
header-patch invocation rewrites exactly those 4 bytes to `"Y800"` and
emits the warning, while a dry-run invocation emits the warning but
leaves the content unchanged; on a file with any other bytes there, the
content is unchanged in either mode and no log is emitted. -/
theorem c6_header_patch :
    ∀ (p : String) (content : List Nat),
      ((content.drop 188).take 4 = y16Bytes →
        (FileProcessor.correct_video_header true p content).content
            = content.take 188 ++ y800Bytes ++ content.drop 192 ∧
        (FileProcessor.correct_video_header true p content).warned = true ∧
        (FileProcessor.correct_video_header false p content).content = content ∧
        (FileProcessor.correct_video_header false p content).warned = true) ∧
      ((content.drop 188).take 4 ≠ y16Bytes →
        (FileProcessor.correct_video_header true p content).content = content ∧
        (FileProcessor.correct_video_header false p content).content = content ∧
        (FileProcessor.correct_video_header true p content).warned = false ∧
        (FileProcessor.correct_video_header false p content).warned = false) := by
  intro p content
  constructor
  · intro h
    simp [FileProcessor.correct_video_header, h, listWriteAt, y800Bytes]
  · intro h
    simp [FileProcessor.correct_video_header, h]

/-- C6 witness: a concrete 192-byte file carrying the `"Y16 "` tag at
offset 188 is patched to carry `"Y800"` there by a real-run invocation,
and a concrete file with a different tag is left unchanged. -/
theorem c6_header_patch_witness :
    (((List.replicate 188 0 ++ y16Bytes).drop 188).take 4 = y16Bytes ∧
      (FileProcessor.correct_video_header true "M20250101.avi"
          (List.replicate 188 0 ++ y16Bytes)).content
        = (List.replicate 188 0 ++ y16Bytes).take 188 ++ y800Bytes
            ++ (List.replicate 188 0 ++ y16Bytes).drop 192) ∧
    (((List.replicate 192 0 : List Nat).drop 188).take 4 ≠ y16Bytes ∧
      (FileProcessor.correct_video_header true "M20250101.avi"
          (List.replicate 192 0 : List Nat)).content
        = List.replicate 192 0) := by
  constructor
  · exact ⟨by decide,
      ((c6_header_patch "M20250101.avi" (List.replicate 188 0 ++ y16Bytes)).1
        (by decide)).1⟩
  · exact ⟨by decide,
      ((c6_header_patch "M20250101.avi" (List.replicate 192 0 : List Nat)).2
        (by decide)).1⟩

/-- C2 fails on the code: in dry-run mode, `convert_avi` on an existing
source still performs the `mkdir` of the target's parent directory
(processor.py line 65 runs before the `real_run` test), so the target
filesystem is not left unchanged. This theorem evaluates the embedded
code: the dry-run action trace always contains the directory creation. -/
theorem c2_dry_run_convert_creates_directory :
    ∀ (dbg : Bool) (ff src tp tgt : String) (content : List Nat)
      (cdc pf : String) (ss ts rc : Int),
      FsAction.mkdir tp ∈
        (FileProcessor.convert_avi false dbg ff src tp tgt true content
          cdc pf ss ts rc).2 := by
  intro dbg ff src tp tgt content cdc pf ss ts rc
  simp only [FileProcessor.convert_avi, Bool.not_true, Bool.false_eq_true,
    if_false, List.mem_append]
  exact Or.inr (List.mem_singleton.mpr rfl)

/-- C10: when processing a file fails with a recoverable `OSError`, the
`processed`, `processed_size` and `reclaimed_size` counters are unchanged
and only `process_failed` is incremented (besides the unconditional
`inspected` counters updated before the decision). -/
theorem c10_recoverable_process_failure :
    ∀ (ot : Int) (cf df : Bool) (f : FileObs) (c : Counters),
      f.statOk = true →
      f.processOutcome = Except.error OsErr.osError →
      (computeDecisions ot cf df f).should_process = true →
      (computeDecisions ot cf df f).should_delete = false →
      stepFile ot cf df f c = StepResult.cont
        { c with inspected := c.inspected + 1,
                 inspected_size := c.inspected_size + f.size,
                 process_failed := c.process_failed + 1 } := by
  intro ot cf df f c h1 h2 h3 h4
  simp [stepFile, h1, h2, h3, h4, deleteBlock]

/-- C10 witness: a concrete uncopied file whose processing fails with a
recoverable `OSError` leaves the success counters at zero and sets the
failure counter to one. -/
theorem c10_recoverable_process_failure_witness :
    ({ statOk := true, size := 500, source_age_seconds := 86400,
       target_exists := false, source_newer := false,
       processOutcome := Except.error OsErr.osError,
       deleteOutcome := Except.ok 0 } : FileObs).statOk = true ∧
    (computeDecisions 30 false false
      { statOk := true, size := 500, source_age_seconds := 86400,
        target_exists := false, source_newer := false,
        processOutcome := Except.error OsErr.osError,
        deleteOutcome := Except.ok 0 }).should_process = true ∧
    (computeDecisions 30 false false
      { statOk := true, size := 500, source_age_seconds := 86400,
        target_exists := false, source_newer := false,
        processOutcome := Except.error OsErr.osError,
        deleteOutcome := Except.ok 0 }).should_delete = false ∧
    stepFile 30 false false
      { statOk := true, size := 500, source_age_seconds := 86400,
        target_exists := false, source_newer := false,
        processOutcome := Except.error OsErr.osError,
        deleteOutcome := Except.ok 0 } Counters.zero
      = StepResult.cont
          { Counters.zero with
              inspected := Counters.zero.inspected + 1,
              inspected_size := Counters.zero.inspected_size + 500,
              process_failed := Counters.zero.process_failed + 1 } := by
  refine ⟨rfl, by decide, by decide, ?_⟩
  exact c10_recoverable_process_failure 30 false false
    { statOk := true, size := 500, source_age_seconds := 86400,
      target_exists := false, source_newer := false,
      processOutcome := Except.error OsErr.osError,
      deleteOutcome := Except.ok 0 } Counters.zero rfl rfl (by decide) (by decide)

/-- A file whose target is missing and whose processing raises
`FileNotFoundError` (it vanished between discovery and the action). -/
def fnfFile : FileObs :=
  { statOk := true, size := 200000, source_age_seconds := 5 * 86400,
    target_exists := false, source_newer := false,
    processOutcome := Except.error OsErr.fileNotFound,
    deleteOutcome := Except.ok 0 }

/-- An ordinary file after `fnfFile` in the sorted traversal: already
copied, not newer, not old, so nothing is processed or deleted. -/
def plainFile : FileObs :=
  { statOk := true, size := 500, source_age_seconds := 5 * 86400,
    target_exists := true, source_newer := false,
    processOutcome := Except.ok 0,
    deleteOutcome := Except.ok 0 }

/-- C1 is false on the code: the outer per-file handler of
`DirectoryConvertor.run` (tree.py lines 152-153) catches the re-raised
`FileNotFoundError`, logs "skipping" and lets the loop continue, so after
a missing-file processing failure on the first file the run does not
abort and the second file is still inspected. -/
theorem c1_counterexample :
    (computeDecisions 30 false false fnfFile).should_process = true ∧
    fnfFile.processOutcome = Except.error OsErr.fileNotFound ∧
    (runLoop 30 false false [fnfFile, plainFile] Counters.zero).aborted = false ∧
    (runLoop 30 false false [fnfFile, plainFile] Counters.zero).counters.inspected = 2 ∧
    (runLoop 30 false false [fnfFile, plainFile] Counters.zero).counters.process_failed = 1 :=
  ⟨rfl, rfl, rfl, rfl, rfl⟩

/-- C1 (amended): for every file whose processing or deletion raises a
file-not-found error, the engine increments the corresponding failure
counter, the exception propagates to the per-file handler which logs it
and skips the remainder of that file's actions, and the traversal
continues with the next file in sorted order. -/
theorem c1_amended_fnf_skips_file :
    (∀ (ot : Int) (cf df : Bool) (f : FileObs) (rest : List FileObs) (c : Counters),
      f.statOk = true →
      f.processOutcome = Except.error OsErr.fileNotFound →
      (computeDecisions ot cf df f).should_process = true →
      runLoop ot cf df (f :: rest) c
        = runLoop ot cf df rest
            { c with inspected := c.inspected + 1,
                     inspected_size := c.inspected_size + f.size,
                     process_failed := c.process_failed + 1 }) ∧
    (∀ (ot : Int) (cf df : Bool) (f : FileObs) (rest : List FileObs) (c : Counters),
      f.statOk = true →
      f.deleteOutcome = Except.error OsErr.fileNotFound →
      (computeDecisions ot cf df f).should_process = false →
      (computeDecisions ot cf df f).should_delete = true →
      runLoop ot cf df (f :: rest) c
        = runLoop ot cf df rest
            { c with inspected := c.inspected + 1,
                     inspected_size := c.inspected_size + f.size,
                     delete_failed := c.delete_failed + 1 }) := by
  constructor
  · intro ot cf df f rest c h1 h2 h3
    simp [runLoop, stepFile, h1, h2, h3]
  · intro ot cf df f rest c h1 h2 h3 h4
    simp [runLoop, stepFile, deleteBlock, DirectoryConvertor.delete,
      h1, h2, h3, h4]

/-- C1 (amended) witness: a concrete single-file traversal whose
processing raises `FileNotFoundError` counts the failure and continues
into the empty remainder of the traversal. -/
theorem c1_amended_fnf_skips_file_witness :
    fnfFile.statOk = true ∧
    fnfFile.processOutcome = Except.error OsErr.fileNotFound ∧
    (computeDecisions 30 false false fnfFile).should_process = true ∧
    runLoop 30 false false [fnfFile] Counters.zero
      = runLoop 30 false false []
          { Counters.zero with
              inspected := Counters.zero.inspected + 1,
              inspected_size := Counters.zero.inspected_size + fnfFile.size,
              process_failed := Counters.zero.process_failed + 1 } := by
  refine ⟨rfl, rfl, by decide, ?_⟩
  exact c1_amended_fnf_skips_file.1 30 false false fnfFile [] Counters.zero
    rfl rfl (by decide)

/-- A copied, old file observed during a run with the delete flag
enabled: `should_delete` is true and the processor-level delete succeeds
(returning 0, as it always does in the dry-run mode that the delete flag
forces). -/
def deletableFile : FileObs :=
  { statOk := true, size := 100, source_age_seconds := 40 * 86400,
    target_exists := true, source_newer := false,
    processOutcome := Except.ok 0,
    deleteOutcome := Except.ok 0 }

/-- C3 fails on the code: `DirectoryConvertor.delete` (tree.py lines
169-171) has no `return` statement, so it returns `None`, and
`deleted_size += self.delete(source_path)` (tree.py line 144) raises an
uncaught `TypeError`. On a file with `should_delete` true whose deletion
succeeds, the run aborts with neither `deleted` nor `deleted_size`
updated. -/
theorem c3_successful_delete_crashes_run :
    (computeDecisions 30 false true deletableFile).should_delete = true ∧
    deletableFile.deleteOutcome = Except.ok 0 ∧
    runLoop 30 false true [deletableFile] Counters.zero
      = ⟨true, { Counters.zero with inspected := 1, inspected_size := 100 }⟩ :=
  ⟨rfl, rfl, rfl⟩
